import Mathlib

/-!
Shallow embedding of the decay-classification and rendering logic of
`ChartDrawer.py` (function `draw_nuclide` and the isomer handling of the
main loop).  Pixel coordinates are modelled exactly as rationals; the
per-nuclide element id strings (which come from `Nuclide.__str__`, a file
not part of this repository) are omitted from the draw-call records, since
no property below depends on them.  Python runtime errors that can escape
`draw_nuclide` (IndexError on an empty decay-mode list, NameError on the
never-assigned `half_life_unit` caption variable) are modelled by an
`Option` result, `none` meaning the call raises.
-/

namespace ChartDrawer

/-- One decay-mode entry: a mode label and a branching-ratio string. -/
structure DecayMode where
  mode : String
  value : String
  deriving DecidableEq, Repr

instance : Inhabited DecayMode := ⟨⟨"", ""⟩⟩

/-- Half-life record.  `extrapolated` is kept as the string the code
compares against (`nuclide.half_life['extrapolated'] == 'True'`). -/
structure HalfLife where
  value : String
  unit : String
  relation : String
  extrapolated : String
  deriving DecidableEq, Repr

/-- One isomeric state: its own half-life and decay-mode list. -/
structure IsomerState where
  half_life : HalfLife
  decay_modes : List DecayMode
  deriving DecidableEq, Repr

/-- The per-isotope record consumed by `draw_nuclide`. -/
structure Nuclide where
  Z : Nat
  N : Nat
  A : Nat
  element : String
  decay_modes : List DecayMode
  half_life : HalfLife
  isomers : List IsomerState
  deriving DecidableEq, Repr

/-- The command-line switches read inside `draw_nuclide` (all default to
`true`; the `--xxx` options are `store_false`). -/
structure Args where
  names : Bool
  halflives : Bool
  isomers : Bool
  unknown : Bool
  deriving DecidableEq, Repr

/-- The `COLORS` dictionary of the source. -/
def COLORS (m : String) : String :=
  if m = "is" then "#000000"
  else if m = "b-" then "#62aeff"
  else if m = "2b-" then "#62aeff"
  else if m = "b+" then "#ff7e75"
  else if m = "ec" then "#ff7e75"
  else if m = "2ec" then "#ff7e75"
  else if m = "a" then "#fffe49"
  else if m = "sf" then "#5cbc57"
  else if m = "p" then "#ffa425"
  else if m = "2p" then "#ffa425"
  else if m = "n" then "#9fd7ff"
  else if m = "2n" then "#9fd7ff"
  else if m = "it" then "#ffffff"
  else if m = "cluster" then "#a564cc"
  else if m = "?" then "#cccccc"
  else ""

def FONT_COLOR_DARK : String := "#000000"

def FONT_COLOR_BRIGHT : String := "#aaaaaa"

/-- `basic_decay_modes` list from `draw_nuclide`. -/
def basic_decay_modes : List String :=
  ["is", "a", "b-", "b+", "ec", "p", "2p", "sf", "n", "2n", "2ec", "2b-"]

/-- The genuine-duration unit set used for isomer filtering. -/
def genuine_units : List String :=
  ["d", "h", "m", "s", "Yy", "Zy", "Ey", "Py", "Ty", "Gy", "My", "ky", "y"]

/-- `re.search(r'[0-9]{2}([a-z]+)$', s)`: somewhere in `s`, two decimal
digits followed by one or more lowercase ascii letters running to the end
of the string. -/
def cluster_search (s : String) : Bool :=
  (List.range s.data.length).any (fun i =>
    match s.data.drop i with
    | c1 :: c2 :: rest =>
        c1.isDigit && c2.isDigit && !rest.isEmpty &&
          rest.all (fun c => decide ('a' ≤ c ∧ c ≤ 'z'))
    | _ => false)

/-- `s.strip('#')`: remove all leading and trailing `#` characters. -/
def stripHash (s : String) : String :=
  ⟨((s.data.dropWhile (· = '#')).reverse.dropWhile (· = '#')).reverse⟩

/-- Value of a string of decimal digits. -/
def digitsToNat (cs : List Char) : Nat :=
  cs.foldl (fun a c => a * 10 + (c.toNat - '0'.toNat)) 0

/-- Model of Python `float(s)` on plain decimal / scientific literals,
returning the exact rational value (`none` when `float` would raise
`ValueError`).  Accepted shape: optional sign, digits with an optional
decimal point (at least one digit overall), optional single `e`/`E`
exponent with optional sign and mandatory digits. -/
def parseFloat (s : String) : Option ℚ :=
  let cs := s.data
  let p1 : Bool × List Char :=
    match cs with
    | '+' :: t => (false, t)
    | '-' :: t => (true, t)
    | t => (false, t)
  let neg := p1.1
  let cs1 := p1.2
  let ip := cs1.takeWhile Char.isDigit
  let cs2 := cs1.dropWhile Char.isDigit
  let p2 : Bool × List Char :=
    match cs2 with
    | '.' :: t => (true, t)
    | t => (false, t)
  let hasDot := p2.1
  let cs3 := p2.2
  let fp := if hasDot then cs3.takeWhile Char.isDigit else []
  let cs4 := if hasDot then cs3.dropWhile Char.isDigit else cs3
  if ip.isEmpty && fp.isEmpty then none
  else
    let mantNat : Nat := digitsToNat ip * 10 ^ fp.length + digitsToNat fp
    let mantInt : Int := if neg then -(Int.ofNat mantNat) else Int.ofNat mantNat
    match cs4 with
    | [] => some (mkRat mantInt (10 ^ fp.length))
    | e :: t =>
      if e = 'e' ∨ e = 'E' then
        let p3 : Bool × List Char :=
          match t with
          | '+' :: u => (false, u)
          | '-' :: u => (true, u)
          | u => (false, u)
        let eneg := p3.1
        let t1 := p3.2
        let ed := t1.takeWhile Char.isDigit
        let t2 := t1.dropWhile Char.isDigit
        if ed.isEmpty ∨ t2 ≠ [] then none
        else if eneg then some (mkRat mantInt (10 ^ fp.length * 10 ^ digitsToNat ed))
        else some (mkRat (mantInt * Int.ofNat (10 ^ digitsToNat ed)) (10 ^ fp.length))
      else none

/-- Full match of `sci_re = r'^[-+]?[0-9]*\.?[0-9]+([eE]+[-+]?[0-9]+)$'`:
optional sign, digit run with optional dot (digits required after the dot
when present, before it otherwise), then one or more `e`/`E` characters,
an optional sign and a mandatory exponent digit run. -/
def sciMatch (s : String) : Bool :=
  let cs := s.data
  let cs1 :=
    match cs with
    | '+' :: t => t
    | '-' :: t => t
    | t => t
  let ip := cs1.takeWhile Char.isDigit
  let cs2 := cs1.dropWhile Char.isDigit
  let p2 : Bool × List Char :=
    match cs2 with
    | '.' :: t => (true, t)
    | t => (false, t)
  let hasDot := p2.1
  let cs3 := p2.2
  let fp := if hasDot then cs3.takeWhile Char.isDigit else []
  let cs4 := if hasDot then cs3.dropWhile Char.isDigit else cs3
  let mantOk := if hasDot then !fp.isEmpty else !ip.isEmpty
  let es := cs4.takeWhile (fun c => c = 'e' ∨ c = 'E')
  let cs5 := cs4.dropWhile (fun c => c = 'e' ∨ c = 'E')
  let cs6 :=
    match cs5 with
    | '+' :: t => t
    | '-' :: t => t
    | t => t
  let ed := cs6.takeWhile Char.isDigit
  let cs7 := cs6.dropWhile Char.isDigit
  mantOk && !es.isEmpty && !ed.isEmpty && cs7.isEmpty

/-- Fuel-driven decimal-exponent search: the exponent `e` of a positive
rational with `10 ^ e ≤ a < 10 ^ (e + 1)`.  The fuel passed by
`formatSci` always suffices, so the fuel-exhausted branch is never
reached on positive inputs. -/
def expOfAux : Nat → ℚ → Int
  | 0, _ => 0
  | f + 1, a =>
    if a < 1 then expOfAux f (a * 10) - 1
    else if 10 ≤ a then expOfAux f (a / 10) + 1
    else 0

/-- Round a non-negative rational to the nearest integer, ties to even
(the rounding used when Python formats a float in decimal). -/
def roundHalfEven (x : ℚ) : Nat :=
  let fl := x.floor
  let fr := x - (fl : ℚ)
  (if 1 / 2 < fr then fl + 1
   else if fr < 1 / 2 then fl
   else if fl % 2 = 0 then fl else fl + 1).toNat

/-- Integer power of ten as a rational. -/
def pow10 (e : Int) : ℚ :=
  if 0 ≤ e then (10 : ℚ) ^ e.toNat else 1 / (10 : ℚ) ^ (-e).toNat

/-- Model of `'{0:.1e}'.format(x)`: one fractional digit, `e`, explicit
exponent sign, exponent zero-padded to two digits.  (Python formats the
nearest binary double; on the exact decimal values handled here the two
agree.) -/
def formatSci (q : ℚ) : String :=
  if q = 0 then "0.0e+00"
  else
    let a := |q|
    let sgn := if q < 0 then "-" else ""
    let e0 := expOfAux (Nat.log 10 a.num.natAbs + Nat.log 10 a.den + 2) a
    let m := a / pow10 e0
    let r0 := roundHalfEven (m * 10)
    let r := if r0 = 100 then 10 else r0
    let e := if r0 = 100 then e0 + 1 else e0
    let d1 := r / 10
    let d0 := r % 10
    let esign := if e < 0 then "-" else "+"
    let eabs := e.natAbs
    let estr := if eabs < 10 then "0" ++ toString eabs else toString eabs
    sgn ++ toString d1 ++ "." ++ toString d0 ++ "e" ++ esign ++ estr

/-- The half-life value as the source displays it: reformatted to
one-significant-digit exponential notation when it matches `sci_re`,
kept literal otherwise.  (When `sci_re` matches a string that `float`
still rejects, e.g. a doubled `e`, the uncaught `ValueError` path is
unreachable for the well-formed values considered here; the string is
returned unchanged in that corner.) -/
def displayValue (s : String) : String :=
  if sciMatch s then
    match parseFloat s with
    | some q => formatSci q
    | none => s
  else s

/-- `nuclide.half_life['value'].find('unstable') >= 0`. -/
def has_unstable : List Char → Bool
  | [] => false
  | c :: cs => ("unstable".data.isPrefixOf (c :: cs)) || has_unstable cs

def contains_unstable (s : String) : Bool :=
  has_unstable s.data

/-- Abstract draw calls emitted by `draw_nuclide`.  Each carries the SVG
layer index, the exact pixel data and the payload; the element-id strings
(built by the missing `Nuclide.__str__`) are omitted. -/
inductive DrawCall where
  | rect (layer : Nat) (pos : ℚ × ℚ) (color : String)
  | isomerRect (layer : Nat) (pos : ℚ × ℚ) (color : String)
  | triangle (layer : Nat) (pos : ℚ × ℚ) (color : String) (corner : String)
  | smallTriangle (layer : Nat) (pos : ℚ × ℚ) (color : String) (corner : String)
  | smallIsomerTriangle (layer : Nat) (pos : ℚ × ℚ) (color : String) (corner : String)
  | isomerLine (layer : Nat) (p1 : ℚ × ℚ) (p2 : ℚ × ℚ)
  | text (layer : Nat) (pos : ℚ × ℚ) (fontColor : String) (fontSize : Nat) (content : String)
  deriving DecidableEq, Repr

/-- Position-free summary of a draw call, used to state concrete
evaluations without forcing pixel arithmetic. -/
inductive CallView where
  | rect (color : String)
  | isomerRect (color : String)
  | triangle (color : String) (corner : String)
  | smallTriangle (color : String) (corner : String)
  | smallIsomerTriangle (color : String) (corner : String)
  | isomerLine
  | text (fontColor : String) (fontSize : Nat) (content : String)
  deriving DecidableEq, Repr

/-- Forget the layer and pixel data of a draw call. -/
def view : DrawCall → CallView
  | DrawCall.rect _ _ c => CallView.rect c
  | DrawCall.isomerRect _ _ c => CallView.isomerRect c
  | DrawCall.triangle _ _ c k => CallView.triangle c k
  | DrawCall.smallTriangle _ _ c k => CallView.smallTriangle c k
  | DrawCall.smallIsomerTriangle _ _ c k => CallView.smallIsomerTriangle c k
  | DrawCall.isomerLine _ _ _ => CallView.isomerLine
  | DrawCall.text _ _ fc fs s => CallView.text fc fs s

/-- Summarize a `draw_nuclide` result by the views of its calls and the
final decay-mode list. -/
def views (r : Option (List DrawCall × List DecayMode)) :
    Option (List CallView × List DecayMode) :=
  r.map (fun p => (p.1.map view, p.2))

/-- First index of `rest` (0-based within `rest`) holding a basic decay
mode — the search loop `for i in range(1, len(decay_modes))`. -/
def find_basic : List DecayMode → Option Nat
  | [] => none
  | d :: rest =>
    if d.mode ∈ basic_decay_modes then some 0
    else (find_basic rest).map (· + 1)

/-- The in-place swap
`decay_modes[0], decay_modes[j] = decay_modes[j], decay_modes[0]`. -/
def swap_front (dm : List DecayMode) (j : Nat) : List DecayMode :=
  (dm.set 0 (dm.getD j default)).set j (dm.getD 0 default)

/-- Primary-mode selection of `draw_nuclide` (file lines 444-462): keep a
basic first mode; allow `?` when unknown isotopes are enabled; otherwise
swap the first later basic entry to the front; `none` is the silent-skip
`return`. -/
def primary_classify (d0 : DecayMode) (rest : List DecayMode) (unknown : Bool) :
    Option (String × List DecayMode) :=
  if d0.mode ∈ basic_decay_modes then some (COLORS d0.mode, d0 :: rest)
  else if d0.mode = "?" ∧ unknown = true then some (COLORS "?", d0 :: rest)
  else
    match find_basic rest with
    | some i => some (COLORS (rest.getD i default).mode, swap_front (d0 :: rest) (i + 1))
    | none => none

/-- The secondary-mode scan over `decay_modes[1:]` (lines 480-495).
Carries the current `secondary_size` and `secondary_color`; a basic-mode
entry with a parseable value overwrites both and the scan continues, a
cluster match sets a small cluster marker and breaks, an unparseable
value is skipped. -/
def secondary_scan (primary_color : String) :
    List DecayMode → Option String → Option String → Option String × Option String
  | [], size, color => (size, color)
  | d :: rest, size, color =>
    if d.mode ∈ basic_decay_modes then
      match parseFloat (stripHash d.value) with
      | none => secondary_scan primary_color rest size color
      | some v =>
        let color1 := some (COLORS d.mode)
        let size1 :=
          if 5 < v ∧ primary_color ≠ COLORS "is" then some "large"
          else if 0 < v then some "small"
          else size
        secondary_scan primary_color rest size1 color1
    else if cluster_search d.mode then (some "small", some (COLORS "cluster"))
    else secondary_scan primary_color rest size color

/-- The isomer secondary scan (lines 630-656): identical to
`secondary_scan` except that the isomeric-transition mode `it` is also
accepted. -/
def isomer_secondary_scan (isomer_primary_color : String) :
    List DecayMode → Option String → Option String → Option String × Option String
  | [], size, color => (size, color)
  | d :: rest, size, color =>
    if d.mode ∈ basic_decay_modes ∨ d.mode = "it" then
      match parseFloat (stripHash d.value) with
      | none => isomer_secondary_scan isomer_primary_color rest size color
      | some v =>
        let color1 := some (COLORS d.mode)
        let size1 :=
          if 5 < v ∧ isomer_primary_color ≠ COLORS "is" then some "large"
          else if 0 < v then some "small"
          else size
        isomer_secondary_scan isomer_primary_color rest size1 color1
    else if cluster_search d.mode then (some "small", some (COLORS "cluster"))
    else isomer_secondary_scan isomer_primary_color rest size color

/-- The tertiary scan over `decay_modes[2:]` (lines 500-515, repeated at
661-676 for isomers): breaks at the first basic entry with a parseable
value (marking it only when the value is positive) or at a cluster
match; unparseable values are skipped. -/
def tertiary_scan : List DecayMode → Option String × Option String
  | [] => (none, none)
  | d :: rest =>
    if d.mode ∈ basic_decay_modes then
      match parseFloat (stripHash d.value) with
      | none => tertiary_scan rest
      | some v =>
        if 0 < v then (some "small", some (COLORS d.mode)) else (none, none)
    else if cluster_search d.mode then (some "small", some (COLORS "cluster"))
    else tertiary_scan rest

/-- Corner choice for a large secondary triangle (lines 520-528). -/
def secondary_corner_large (secondary_color primary_color : String) : String :=
  if secondary_color = COLORS "a" then "lt"
  else if secondary_color = COLORS "b+" ∧ primary_color ≠ COLORS "a" ∧
      primary_color ≠ COLORS "p" then "lt"
  else "rb"

/-- Corner choice for a small secondary triangle (lines 531-541). -/
def secondary_corner_small (secondary_color primary_color : String) : String :=
  if secondary_color = COLORS "a" then "lt"
  else if secondary_color = COLORS "b+" ∧ primary_color ≠ COLORS "a" ∧
      primary_color ≠ COLORS "p" then "lt"
  else if secondary_color = COLORS "cluster" then "rt"
  else "rb"

/-- Corner choice for the tertiary triangle (lines 545-555). -/
def tertiary_corner (tertiary_color primary_color secondary_color : String) : String :=
  if tertiary_color = COLORS "a" then "lt"
  else if tertiary_color = COLORS "b+" ∧ primary_color ≠ COLORS "a" ∧
      secondary_color ≠ COLORS "a" then "lt"
  else if tertiary_color = COLORS "cluster" then "rt"
  else "rb"

/-- Ground-state secondary-marker emission (lines 520-543). -/
def secondary_calls (pos : ℚ × ℚ) (secondary_size secondary_color : Option String)
    (primary_color : String) : List DrawCall :=
  if secondary_size = some "large" then
    [DrawCall.triangle 1 pos (secondary_color.getD "")
      (secondary_corner_large (secondary_color.getD "") primary_color)]
  else if secondary_size = some "small" then
    [DrawCall.smallTriangle 1 pos (secondary_color.getD "")
      (secondary_corner_small (secondary_color.getD "") primary_color)]
  else []

/-- Ground-state tertiary-marker emission (lines 545-557). -/
def tertiary_calls (pos : ℚ × ℚ) (tertiary_size tertiary_color : Option String)
    (primary_color secondary_color : String) : List DrawCall :=
  if tertiary_size = some "small" then
    [DrawCall.smallTriangle 1 pos (tertiary_color.getD "")
      (tertiary_corner (tertiary_color.getD "") primary_color secondary_color)]
  else []

/-- Isomer secondary-marker emission (lines 684-707): a large marker is a
full triangle, a small one a small isomer triangle. -/
def isomer_secondary_calls (pos : ℚ × ℚ) (secondary_size secondary_color : Option String)
    (isomer_primary_color : String) : List DrawCall :=
  if secondary_size = some "large" then
    [DrawCall.triangle 1 pos (secondary_color.getD "")
      (secondary_corner_large (secondary_color.getD "") isomer_primary_color)]
  else if secondary_size = some "small" then
    [DrawCall.smallIsomerTriangle 1 pos (secondary_color.getD "")
      (secondary_corner_small (secondary_color.getD "") isomer_primary_color)]
  else []

/-- Isomer tertiary-marker emission (lines 709-721). -/
def isomer_tertiary_calls (pos : ℚ × ℚ) (tertiary_size tertiary_color : Option String)
    (isomer_primary_color secondary_color : String) : List DrawCall :=
  if tertiary_size = some "small" then
    [DrawCall.smallIsomerTriangle 1 pos (tertiary_color.getD "")
      (tertiary_corner (tertiary_color.getD "") isomer_primary_color secondary_color)]
  else []

/-- Main-path half-life display string (lines 789-803): stable nuclides
show the abundance of `decay_modes[0]`, unstable ones the (possibly
reformatted) value with the unit appended and, for a non-`=` relation,
the relation prefixed to the whole string. -/
def main_half_life_string (hl : HalfLife) (dm0val : String) (primary_color : String) : String :=
  if primary_color ≠ COLORS "is" then
    let s0 := displayValue hl.value
    if hl.value ≠ "?" then
      let s1 := s0 ++ " " ++ hl.unit
      if hl.relation ≠ "=" then hl.relation ++ " " ++ s1 else s1
    else s0
  else dm0val ++ "%"

/-- Isomer caption computation (lines 738-759): returns the updated
`half_life_unit` variable and the four caption texts; `none` models the
`NameError` raised when the ground half-life value is `?` and
`half_life_unit` was never assigned. -/
def isomer_caption_calls (pos : ℚ × ℚ) (font_color : String) (hl : HalfLife)
    (dm0val : String) (hu : Option String) (isomer_half_life isomer_units : String) :
    Option (Option String × List DrawCall) :=
  let y1 := pos.2 + 30 * (1 / 2 : ℚ)
  let y2 := y1 + 5 * (3 / 4 : ℚ)
  let x1 := pos.1 + (1 / 4 : ℚ) * 30
  let x2 := pos.1 + (3 / 4 : ℚ) * 30
  if hl.value ≠ "?" then
    let su : String × String :=
      if hl.relation ≠ "=" then (hl.relation, hl.value)
      else (displayValue hl.value, hl.unit)
    some (some su.2,
      [DrawCall.text 3 (x2, y1) font_color 3 su.1,
       DrawCall.text 3 (x2, y2) font_color 3 su.2,
       DrawCall.text 3 (x1, y1) font_color 3 isomer_half_life,
       DrawCall.text 3 (x1, y2) font_color 3 isomer_units])
  else
    match hu with
    | none => none
    | some u =>
      some (some u,
        [DrawCall.text 3 (x2, y1) font_color 3 (dm0val ++ "%"),
         DrawCall.text 3 (x2, y2) font_color 3 u,
         DrawCall.text 3 (x1, y1) font_color 3 isomer_half_life,
         DrawCall.text 3 (x1, y2) font_color 3 isomer_units])

/-- Processing of one entry of the `isomers` list inside `draw_nuclide`
(lines 588-759): a genuine entry (`relation == '='`, unit in the
genuine-duration set) gets a full isomer classification and drawing pass;
other entries draw nothing.  State threaded through the loop: the
`isomer_primary_color` and `half_life_unit` variables. -/
def process_isomer (dm1 : List DecayMode) (hl : HalfLife) (font_color : String)
    (pos : ℚ × ℚ) (iso : IsomerState) (ipc : String) (hu : Option String) :
    Option (String × Option String × List DrawCall) :=
  if iso.half_life.relation = "=" then
    if iso.half_life.unit ∈ genuine_units then
      let idm := iso.decay_modes
      let ipc1 :=
        match idm with
        | [] => ipc
        | d :: _ =>
          if d.mode ∈ basic_decay_modes ∨ d.mode = "it" then
            match parseFloat (stripHash d.value) with
            | some _ => COLORS d.mode
            | none => ipc
          else ipc
      let sc := isomer_secondary_scan ipc1 idm.tail none none
      let tc :=
        if 2 < idm.length ∧ (sc.1 = some "large" ∨
            (sc.1 = some "small" ∧ ipc1 = COLORS "is")) then
          tertiary_scan (idm.drop 2)
        else (none, none)
      let secCalls := isomer_secondary_calls pos sc.1 sc.2 ipc1
      let terCalls := isomer_tertiary_calls pos tc.1 tc.2 ipc1 (sc.2.getD "")
      let rectCall := DrawCall.isomerRect 0 pos ipc1
      let lineCall := DrawCall.isomerLine 1
        (pos.1 + 15, pos.2 + 30 * (3 / 10 : ℚ) + 1 / 5)
        (pos.1 + 15, pos.2 + 30 - 1 / 5)
      match isomer_caption_calls pos font_color hl ((dm1.headD default).value) hu
          iso.half_life.value iso.half_life.unit with
      | none => none
      | some (hu1, captions) =>
        some (ipc1, hu1, secCalls ++ terCalls ++ [rectCall, lineCall] ++ captions)
    else some (ipc, hu, [])
  else some (ipc, hu, [])

/-- The `for possible_isomers in found_isomers` loop of `draw_nuclide`:
every entry is processed in order; there is no break. -/
def process_isomers (dm1 : List DecayMode) (hl : HalfLife) (font_color : String)
    (pos : ℚ × ℚ) : List IsomerState → String → Option String →
    Option (String × Option String × List DrawCall)
  | [], ipc, hu => some (ipc, hu, [])
  | iso :: rest, ipc, hu =>
    match process_isomer dm1 hl font_color pos iso ipc hu with
    | none => none
    | some (ipc1, hu1, calls) =>
      match process_isomers dm1 hl font_color pos rest ipc1 hu1 with
      | none => none
      | some (ipc2, hu2, calls2) => some (ipc2, hu2, calls ++ calls2)

/-- Everything `draw_nuclide` does after the primary mode is settled
(lines 464-810), given the primary color and the (possibly swapped)
decay-mode list `dm1`.  Returns the emitted draw calls and the final
decay-mode list; `none` models an uncaught Python exception. -/
def draw_body (n : Nuclide) (pos : ℚ × ℚ) (args : Args) (is_isomer : Bool)
    (primary_color : String) (dm1 : List DecayMode) :
    Option (List DrawCall × List DecayMode) :=
  if contains_unstable n.half_life.value then some ([], dm1)
  else
    let sc := secondary_scan primary_color dm1.tail none none
    let tc :=
      if 2 < dm1.length ∧ (sc.1 = some "large" ∨
          (sc.1 = some "small" ∧ primary_color = COLORS "is")) then
        tertiary_scan (dm1.drop 2)
      else (none, none)
    let base := [DrawCall.rect 0 pos primary_color]
    let secCalls := secondary_calls pos sc.1 sc.2 primary_color
    let terCalls := tertiary_calls pos tc.1 tc.2 primary_color (sc.2.getD "")
    let font_color := if primary_color = COLORS "is" then FONT_COLOR_BRIGHT else FONT_COLOR_DARK
    if args.isomers = true ∧ is_isomer = true then
      if args.names = true then
        let nameCall := DrawCall.text 3 (pos.1 + 15, pos.2 + 2 + 9 * 7 / 10) font_color 5
          ("$*" ++ toString n.A ++ "*$" ++ n.element)
        (process_isomers dm1 n.half_life font_color pos n.isomers primary_color none).map
          (fun r => (base ++ secCalls ++ terCalls ++ [nameCall] ++ r.2.2, dm1))
      else some (base ++ secCalls ++ terCalls, dm1)
    else
      let nameCalls :=
        if args.names = true then
          [DrawCall.text 3 (pos.1 + 15, pos.2 + 2 + 5 * 7 / 4) font_color 7
            ("$*" ++ toString n.A ++ "*$" ++ n.element)]
        else []
      let hlCalls :=
        if args.halflives = true ∧ ¬(n.half_life.extrapolated = "True") then
          [DrawCall.text 3 (pos.1 + 15, pos.2 + 30 - 15 / 2) font_color 5
            (main_half_life_string n.half_life ((dm1.headD default).value) primary_color)]
        else []
      some (base ++ secCalls ++ terCalls ++ nameCalls ++ hlCalls, dm1)

/-- Dispatch on the primary classification: a silent skip (`return`)
emits nothing and leaves the decay-mode list as it stands, otherwise the
drawing body runs with the chosen primary color and the possibly swapped
list. -/
def draw_dispatch (n : Nuclide) (pos : ℚ × ℚ) (args : Args) (is_isomer : Bool)
    (d0 : DecayMode) (rest : List DecayMode) : Option (List DrawCall × List DecayMode) :=
  (primary_classify d0 rest args.unknown).elim (some ([], d0 :: rest))
    (fun x => draw_body n pos args is_isomer x.1 x.2)

/-- The full `draw_nuclide` routine: primary classification (with the
silent-skip returns), then the drawing body.  `none` models an uncaught
exception (IndexError on an empty decay-mode list, or the caption
NameError). -/
def draw_nuclide (n : Nuclide) (pos : ℚ × ℚ) (args : Args) (is_isomer : Bool) :
    Option (List DrawCall × List DecayMode) :=
  match n.decay_modes with
  | [] => none
  | d0 :: rest => draw_dispatch n pos args is_isomer d0 rest

/-- One step of the main-loop isomer detection (lines 1039-1052): the
`is_isomer` flag is set when some isomer has relation `=` and a
genuine-duration unit. -/
def genuine_isomer (iso : IsomerState) : Bool :=
  iso.half_life.relation = "=" && iso.half_life.unit ∈ genuine_units

/-- The `is_isomer` flag computed by the main loop for a nuclide. -/
def resolve_is_isomer (isomers : List IsomerState) : Bool :=
  isomers.any genuine_isomer

/-- Recognizer for the inset isomer rectangle among draw calls. -/
def is_isomer_rect : DrawCall → Bool
  | DrawCall.isomerRect _ _ _ => true
  | _ => false

/-- Recognizer for a half-life annotation text (font size
`SIZE_FONT_HL = 5`, the size used only by the main-path half-life
caption on the non-isomer branch). -/
def is_half_life_text : DrawCall → Bool
  | DrawCall.text _ _ _ fs _ => decide (fs = 5)
  | _ => false

/-! ### Helper lemmas -/

theorem draw_nuclide_cons (n : Nuclide) (pos : ℚ × ℚ) (args : Args) (is_iso : Bool)
    (d0 : DecayMode) (rest : List DecayMode) (hdm : n.decay_modes = d0 :: rest) :
    draw_nuclide n pos args is_iso = draw_dispatch n pos args is_iso d0 rest := by
  unfold draw_nuclide
  rw [hdm]

theorem find_basic_eq_none (l : List DecayMode)
    (h : ∀ d ∈ l, d.mode ∉ basic_decay_modes) : find_basic l = none := by
  induction l with
  | nil => rfl
  | cons d rest ih =>
    unfold find_basic
    rw [if_neg (h d (by simp)), ih (fun e he => h e (by simp [he]))]
    rfl

theorem find_basic_spec (l : List DecayMode) (i : Nat) (h : find_basic l = some i) :
    (l.getD i default).mode ∈ basic_decay_modes := by
  induction l generalizing i with
  | nil => simp [find_basic] at h
  | cons d rest ih =>
    unfold find_basic at h
    by_cases hd : d.mode ∈ basic_decay_modes
    · rw [if_pos hd] at h
      cases h
      simpa using hd
    · rw [if_neg hd] at h
      cases hfr : find_basic rest with
      | none => rw [hfr] at h; simp at h
      | some j =>
        rw [hfr] at h
        simp only [Option.map_some', Option.some.injEq] at h
        subst h
        simpa using ih j hfr

theorem find_basic_isSome (l : List DecayMode)
    (h : ∃ d ∈ l, d.mode ∈ basic_decay_modes) : ∃ i, find_basic l = some i := by
  induction l with
  | nil => simp at h
  | cons d rest ih =>
    by_cases hd : d.mode ∈ basic_decay_modes
    · exact ⟨0, by simp [find_basic, hd]⟩
    · obtain ⟨e, he, hbe⟩ := h
      rcases List.mem_cons.mp he with rfl | hrest
      · exact absurd hbe hd
      · obtain ⟨i, hi⟩ := ih ⟨e, hrest, hbe⟩
        exact ⟨i + 1, by simp [find_basic, hd, hi]⟩

theorem draw_body_snd (n : Nuclide) (pos : ℚ × ℚ) (args : Args) (is_iso : Bool)
    (pc : String) (dm1 : List DecayMode) (calls : List DrawCall) (dmo : List DecayMode)
    (h : draw_body n pos args is_iso pc dm1 = some (calls, dmo)) : dmo = dm1 := by
  unfold draw_body at h
  repeat' split at h
  all_goals simp_all [Option.map_eq_some']
  all_goals obtain ⟨a, b, c, hpi, hc, hout⟩ := h
  all_goals exact hout.symm

end ChartDrawer

open ChartDrawer

/-- C6: for a nuclide whose first decay mode is neither basic nor the
placeholder `?` and none of whose later entries has a basic mode,
`draw_nuclide` silently skips: it emits no draw call at all and leaves
the decay-mode list unchanged. -/
theorem C6_nonbasic_no_later_basic_skips (n : Nuclide) (pos : ℚ × ℚ) (args : Args)
    (is_iso : Bool) (d0 : DecayMode) (rest : List DecayMode)
    (hdm : n.decay_modes = d0 :: rest)
    (h0 : d0.mode ∉ basic_decay_modes) (hq : d0.mode ≠ "?")
    (hr : ∀ d ∈ rest, d.mode ∉ basic_decay_modes) :
    draw_nuclide n pos args is_iso = some ([], n.decay_modes) := by
  rw [draw_nuclide_cons n pos args is_iso d0 rest hdm, hdm]
  unfold draw_dispatch primary_classify
  rw [if_neg h0, if_neg (by simp [hq]), find_basic_eq_none rest hr]
  rfl

/-- Witness for C6 at a concrete nuclide with a non-basic first mode and
no basic mode anywhere. -/
theorem C6_witness :
    draw_nuclide ⟨1, 2, 3, "h", [⟨"b-p", "100"⟩, ⟨"xx", "1"⟩], ⟨"1", "s", "=", "False"⟩, []⟩
      (0, 0) ⟨true, true, true, true⟩ false =
      some ([], [⟨"b-p", "100"⟩, ⟨"xx", "1"⟩]) :=
  C6_nonbasic_no_later_basic_skips _ (0, 0) ⟨true, true, true, true⟩ false
    ⟨"b-p", "100"⟩ [⟨"xx", "1"⟩] rfl (by decide) (by decide) (by decide)

/-- C7: the large-triangle threshold is strict.  A basic-mode secondary
entry whose value parses to exactly 5 sets the size to small (since
5 > 0, whatever the primary color); one parsing to 5.0001 sets it to
large provided the primary color is not the stable color. -/
theorem C7_strict_threshold (pc : String) (e1 e2 : DecayMode) (sz c : Option String)
    (h1 : e1.mode ∈ basic_decay_modes)
    (hv1 : parseFloat (stripHash e1.value) = some 5)
    (h2 : e2.mode ∈ basic_decay_modes)
    (hv2 : parseFloat (stripHash e2.value) = some (mkRat 50001 10000))
    (hpc : pc ≠ COLORS "is") :
    (secondary_scan pc [e1] sz c).1 = some "small" ∧
      (secondary_scan pc [e2] sz c).1 = some "large" := by
  constructor
  · simp only [secondary_scan, h1, hv1, if_true, if_pos]
    rw [if_neg (by simp), if_pos (by norm_num)]
  · simp only [secondary_scan, h2, hv2, if_true, if_pos]
    rw [if_pos ⟨by decide, hpc⟩]

/-- Witness for C7 at the concrete values 5.0 and 5.0001 with an
alpha-mode entry and a beta-minus primary color. -/
theorem C7_witness :
    (secondary_scan "#62aeff" [⟨"a", "5.0"⟩] none none).1 = some "small" ∧
      (secondary_scan "#62aeff" [⟨"a", "5.0001"⟩] none none).1 = some "large" :=
  C7_strict_threshold "#62aeff" ⟨"a", "5.0"⟩ ⟨"a", "5.0001"⟩ none none
    (by decide) (by decide) (by decide) (by decide) (by decide)

/-- C9: when the first decay mode is already basic the reorder-swap never
fires — whatever `draw_nuclide` returns carries the unchanged decay-mode
list — and re-running it on the record updated with that output list is
the same computation. -/
theorem C9_basic_first_no_swap_idempotent (n : Nuclide) (pos : ℚ × ℚ) (args : Args)
    (is_iso : Bool) (d0 : DecayMode) (rest : List DecayMode)
    (hdm : n.decay_modes = d0 :: rest) (hb : d0.mode ∈ basic_decay_modes) :
    (∀ calls dmo, draw_nuclide n pos args is_iso = some (calls, dmo) →
      dmo = n.decay_modes) ∧
    draw_nuclide { n with decay_modes := n.decay_modes } pos args is_iso =
      draw_nuclide n pos args is_iso := by
  constructor
  · intro calls dmo h
    rw [draw_nuclide_cons n pos args is_iso d0 rest hdm] at h
    unfold draw_dispatch primary_classify at h
    rw [if_pos hb] at h
    simp only [Option.elim_some] at h
    rw [hdm]
    exact draw_body_snd n pos args is_iso (COLORS d0.mode) (d0 :: rest) calls dmo h
  · rfl

/-- Witness for C9 at a concrete nuclide whose first mode is beta-minus:
the returned decay-mode list is the unchanged input and re-running on the
updated record is the same computation. -/
theorem C9_witness :
    ((draw_nuclide ⟨1, 2, 3, "h", [⟨"b-", "100"⟩, ⟨"a", "3"⟩], ⟨"1", "s", "=", "False"⟩, []⟩
        (0, 0) ⟨true, true, true, true⟩ false).map Prod.snd =
      some [⟨"b-", "100"⟩, ⟨"a", "3"⟩]) ∧
    draw_nuclide { (⟨1, 2, 3, "h", [⟨"b-", "100"⟩, ⟨"a", "3"⟩], ⟨"1", "s", "=", "False"⟩,
          []⟩ : Nuclide) with
        decay_modes := (⟨1, 2, 3, "h", [⟨"b-", "100"⟩, ⟨"a", "3"⟩], ⟨"1", "s", "=", "False"⟩,
          []⟩ : Nuclide).decay_modes }
      (0, 0) ⟨true, true, true, true⟩ false =
    draw_nuclide ⟨1, 2, 3, "h", [⟨"b-", "100"⟩, ⟨"a", "3"⟩], ⟨"1", "s", "=", "False"⟩, []⟩
      (0, 0) ⟨true, true, true, true⟩ false := by
  have h := C9_basic_first_no_swap_idempotent
    ⟨1, 2, 3, "h", [⟨"b-", "100"⟩, ⟨"a", "3"⟩], ⟨"1", "s", "=", "False"⟩, []⟩
    (0, 0) ⟨true, true, true, true⟩ false ⟨"b-", "100"⟩ [⟨"a", "3"⟩] rfl (by decide)
  refine ⟨?_, h.2⟩
  cases hd : draw_nuclide ⟨1, 2, 3, "h", [⟨"b-", "100"⟩, ⟨"a", "3"⟩],
      ⟨"1", "s", "=", "False"⟩, []⟩ (0, 0) ⟨true, true, true, true⟩ false with
  | none =>
    have hs : (draw_nuclide ⟨1, 2, 3, "h", [⟨"b-", "100"⟩, ⟨"a", "3"⟩],
        ⟨"1", "s", "=", "False"⟩, []⟩ (0, 0) ⟨true, true, true, true⟩ false).isSome =
        true := by decide
    rw [hd] at hs
    exact absurd hs (by decide)
  | some r =>
    obtain ⟨calls, dmo⟩ := r
    rw [Option.map_some']
    rw [h.1 calls dmo hd]

/-- C10: the reorder-swap happens before the `unstable` half-life check,
so a nuclide that is skipped for being proton/neutron-unstable can still
come out of `draw_nuclide` with a permanently reordered decay-mode list:
the skip is not atomic with respect to record state. -/
theorem C10_swap_survives_unstable_skip (n : Nuclide) (pos : ℚ × ℚ) (args : Args)
    (is_iso : Bool) (d0 : DecayMode) (rest : List DecayMode) (i : Nat)
    (hdm : n.decay_modes = d0 :: rest)
    (h0 : d0.mode ∉ basic_decay_modes) (hq : d0.mode ≠ "?")
    (hi : find_basic rest = some i)
    (hun : contains_unstable n.half_life.value = true) :
    draw_nuclide n pos args is_iso = some ([], swap_front (d0 :: rest) (i + 1)) ∧
      swap_front (d0 :: rest) (i + 1) ≠ n.decay_modes := by
  constructor
  · rw [draw_nuclide_cons n pos args is_iso d0 rest hdm]
    unfold draw_dispatch primary_classify
    rw [if_neg h0, if_neg (by simp [hq]), hi]
    simp only [Option.elim_some]
    unfold draw_body
    rw [if_pos hun]
  · intro hEq
    rw [hdm] at hEq
    have hsw : swap_front (d0 :: rest) (i + 1) =
        rest.getD i default :: rest.set i d0 := rfl
    rw [hsw] at hEq
    have hhead : rest.getD i default = d0 := (List.cons.injEq _ _ _ _ ▸ hEq).1
    exact h0 (hhead ▸ find_basic_spec rest i hi)

/-- Witness for C10: an out-of-order record whose half-life reads
`p-unstable` is skipped yet its decay modes come back reordered. -/
theorem C10_witness :
    draw_nuclide ⟨1, 2, 3, "h", [⟨"b-p", "50"⟩, ⟨"b-", "50"⟩],
        ⟨"p-unstable", "", "", "False"⟩, []⟩ (0, 0) ⟨true, true, true, true⟩ false =
      some ([], swap_front [⟨"b-p", "50"⟩, ⟨"b-", "50"⟩] 1) ∧
    swap_front [⟨"b-p", "50"⟩, ⟨"b-", "50"⟩] 1 ≠ [⟨"b-p", "50"⟩, ⟨"b-", "50"⟩] :=
  C10_swap_survives_unstable_skip _ (0, 0) ⟨true, true, true, true⟩ false
    ⟨"b-p", "50"⟩ [⟨"b-", "50"⟩] 0 rfl (by decide) (by decide) (by decide) (by decide)

/-- C1 (counterexample): with decay modes `b- 100, a 3, sf 4` the
secondary pass does not stop at the first qualifying entry `a 3`: the
emitted small triangle carries the spontaneous-fission color, not the
alpha color of the first entry whose value parses positive, refuting the
first-entry-determines-the-marker claim. -/
theorem C1_counterexample :
    views (draw_nuclide ⟨1, 2, 3, "h", [⟨"b-", "100"⟩, ⟨"a", "3"⟩, ⟨"sf", "4"⟩],
        ⟨"1", "s", "=", "False"⟩, []⟩ (0, 0) ⟨false, false, true, true⟩ false) =
      some ([CallView.rect "#62aeff", CallView.smallTriangle "#5cbc57" "rb"],
        [⟨"b-", "100"⟩, ⟨"a", "3"⟩, ⟨"sf", "4"⟩]) ∧
      COLORS "sf" = "#5cbc57" ∧ COLORS "a" = "#fffe49" ∧
      ("#5cbc57" : String) ≠ "#fffe49" := by
  refine ⟨by decide, rfl, rfl, by decide⟩

/-- C1 (amended): the secondary scan does not stop at a basic entry, so
the LAST basic entry with a parseable value determines the secondary
marker.  Whatever precedes it (any basic entries, or non-cluster
non-basic entries), a final basic entry with value above 5 and a
non-stable primary yields a large marker in that entry's color. -/
theorem C1_amended_last_basic_entry_wins (pc : String) (l : List DecayMode)
    (e : DecayMode) (v : ℚ) (sz c : Option String)
    (hl : ∀ d ∈ l, d.mode ∈ basic_decay_modes ∨ cluster_search d.mode = false)
    (he : e.mode ∈ basic_decay_modes)
    (hv : parseFloat (stripHash e.value) = some v) (h5 : 5 < v)
    (hpc : pc ≠ COLORS "is") :
    secondary_scan pc (l ++ [e]) sz c = (some "large", some (COLORS e.mode)) := by
  induction l generalizing sz c with
  | nil =>
    simp only [List.nil_append, secondary_scan, he, if_true, hv]
    rw [if_pos ⟨h5, hpc⟩]
  | cons d t ih =>
    have hl1 : ∀ x ∈ t, x.mode ∈ basic_decay_modes ∨ cluster_search x.mode = false :=
      fun x hx => hl x (List.mem_cons_of_mem d hx)
    by_cases hdb : d.mode ∈ basic_decay_modes
    · simp only [List.cons_append, secondary_scan, hdb, if_true]
      cases hp : parseFloat (stripHash d.value) with
      | none => exact ih sz c hl1
      | some w => exact ih _ _ hl1
    · have hcf : cluster_search d.mode = false := by
        rcases hl d (List.mem_cons_self d t) with h | h
        · exact absurd h hdb
        · exact h
      simp only [List.cons_append, secondary_scan, hdb, if_false, hcf]
      exact ih sz c hl1

/-- Witness for the amended C1: an earlier basic entry `b- 1` is
overridden by the final entry `a 7`. -/
theorem C1_amended_witness :
    secondary_scan "q" ([⟨"b-", "1"⟩] ++ [⟨"a", "7"⟩]) none none =
      (some "large", some (COLORS "a")) :=
  C1_amended_last_basic_entry_wins "q" [⟨"b-", "1"⟩] ⟨"a", "7"⟩ 7 none none
    (by decide) (by decide) (by decide) (by norm_num) (by decide)

/-- Helper: the main-path half-life text is always emitted (and carried
in the returned call list) when half-lives are enabled, the value is not
extrapolated, the first mode is basic and the nuclide is not
proton/neutron-unstable. -/
theorem draw_main_hl_text_mem (n : Nuclide) (pos : ℚ × ℚ) (args : Args)
    (d0 : DecayMode) (rest : List DecayMode)
    (hdm : n.decay_modes = d0 :: rest) (hb : d0.mode ∈ basic_decay_modes)
    (hu : contains_unstable n.half_life.value = false)
    (hhl : args.halflives = true) (hx : ¬ n.half_life.extrapolated = "True") :
    ∃ calls, draw_nuclide n pos args false = some (calls, d0 :: rest) ∧
      DrawCall.text 3 (pos.1 + 15, pos.2 + 30 - 15 / 2)
        (if COLORS d0.mode = COLORS "is" then FONT_COLOR_BRIGHT else FONT_COLOR_DARK) 5
        (main_half_life_string n.half_life d0.value (COLORS d0.mode)) ∈ calls := by
  rw [draw_nuclide_cons n pos args false d0 rest hdm]
  unfold draw_dispatch primary_classify
  rw [if_pos hb]
  simp only [Option.elim_some]
  unfold draw_body
  rw [if_neg (by simp [hu]), if_neg (by simp : ¬ (args.isomers = true ∧ false = true))]
  exact ⟨_, rfl, by simp [hhl, hx]⟩

/-- Helper: shape of the main-path half-life string for a non-stable
nuclide with a known half-life value. -/
theorem main_hl_string_not_stable (hl : HalfLife) (dm0val pc : String)
    (hns : pc ≠ COLORS "is") (hq : hl.value ≠ "?") :
    main_half_life_string hl dm0val pc =
      if hl.relation ≠ "=" then
        hl.relation ++ " " ++ (displayValue hl.value ++ " " ++ hl.unit)
      else displayValue hl.value ++ " " ++ hl.unit := by
  unfold main_half_life_string
  rw [if_pos hns, if_pos hq]

/-- C2 (counterexample): for half-life `2.5 y` with relation `<` the
rendered main-path annotation is `< 2.5 y` — the unit is NOT dropped;
the claimed display `< 2.5` differs. -/
theorem C2_counterexample :
    views (draw_nuclide ⟨1, 2, 3, "h", [⟨"b-", "100"⟩], ⟨"2.5", "y", "<", "False"⟩, []⟩
        (0, 0) ⟨false, true, true, true⟩ false) =
      some ([CallView.rect "#62aeff", CallView.text "#000000" 5 "< 2.5 y"],
        [⟨"b-", "100"⟩]) ∧
      ("< 2.5 y" : String) ≠ "< 2.5" := by
  exact ⟨by decide, by decide⟩

/-- C2 (amended): on the main rendering path the unit is appended first
and a non-`=` relation is prefixed to the whole string, so the display
is `relation value unit` (unit retained); only for relation `=` is it
`value unit`.  The isomer caption path instead puts the relation in the
value row and the raw value in the unit row (there the true unit is
dropped). -/
theorem C2_amended_relation_prefixed_unit_kept (n : Nuclide) (pos : ℚ × ℚ) (args : Args)
    (d0 : DecayMode) (rest : List DecayMode)
    (hdm : n.decay_modes = d0 :: rest) (hb : d0.mode ∈ basic_decay_modes)
    (hns : COLORS d0.mode ≠ COLORS "is")
    (hu : contains_unstable n.half_life.value = false)
    (hq : n.half_life.value ≠ "?")
    (hhl : args.halflives = true) (hx : ¬ n.half_life.extrapolated = "True") :
    (∃ calls, draw_nuclide n pos args false = some (calls, d0 :: rest) ∧
      DrawCall.text 3 (pos.1 + 15, pos.2 + 30 - 15 / 2) FONT_COLOR_DARK 5
        (if n.half_life.relation ≠ "=" then
          n.half_life.relation ++ " " ++ (displayValue n.half_life.value ++ " " ++ n.half_life.unit)
        else displayValue n.half_life.value ++ " " ++ n.half_life.unit) ∈ calls) ∧
    (∀ (fc dv : String) (hu0 : Option String) (ihl iu : String),
      n.half_life.relation ≠ "=" →
      isomer_caption_calls pos fc n.half_life dv hu0 ihl iu =
        some (some n.half_life.value,
          [DrawCall.text 3 (pos.1 + (3 / 4 : ℚ) * 30, pos.2 + 30 * (1 / 2 : ℚ)) fc 3
            n.half_life.relation,
           DrawCall.text 3 (pos.1 + (3 / 4 : ℚ) * 30,
            pos.2 + 30 * (1 / 2 : ℚ) + 5 * (3 / 4 : ℚ)) fc 3 n.half_life.value,
           DrawCall.text 3 (pos.1 + (1 / 4 : ℚ) * 30, pos.2 + 30 * (1 / 2 : ℚ)) fc 3 ihl,
           DrawCall.text 3 (pos.1 + (1 / 4 : ℚ) * 30,
            pos.2 + 30 * (1 / 2 : ℚ) + 5 * (3 / 4 : ℚ)) fc 3 iu])) := by
  constructor
  · obtain ⟨calls, hc, hmem⟩ := draw_main_hl_text_mem n pos args d0 rest hdm hb hu hhl hx
    rw [if_neg hns, main_hl_string_not_stable n.half_life d0.value (COLORS d0.mode) hns hq]
      at hmem
    exact ⟨calls, hc, hmem⟩
  · intro fc dv hu0 ihl iu hrel
    unfold isomer_caption_calls
    rw [if_pos hq, if_pos hrel]

/-- Witness for the amended C2 at half-life `2.5 y`, relation `<`. -/
theorem C2_amended_witness :
    ∃ calls,
      draw_nuclide ⟨1, 2, 3, "h", [⟨"b-", "100"⟩], ⟨"2.5", "y", "<", "False"⟩, []⟩
        (0, 0) ⟨false, true, true, true⟩ false = some (calls, [⟨"b-", "100"⟩]) ∧
      DrawCall.text 3 ((0 : ℚ) + 15, (0 : ℚ) + 30 - 15 / 2) FONT_COLOR_DARK 5
        (if ("<" : String) ≠ "=" then
          "<" ++ " " ++ (displayValue "2.5" ++ " " ++ "y")
        else displayValue "2.5" ++ " " ++ "y") ∈ calls :=
  (C2_amended_relation_prefixed_unit_kept _ (0, 0) ⟨false, true, true, true⟩
    ⟨"b-", "100"⟩ [] rfl (by decide) (by decide) (by decide) (by decide) rfl
    (by decide)).1

/-- Helper: isomer secondary-marker emission never contains the inset
rectangle. -/
theorem isomer_secondary_calls_count (pos : ℚ × ℚ) (s c : Option String) (ipc : String) :
    (isomer_secondary_calls pos s c ipc).countP is_isomer_rect = 0 := by
  unfold isomer_secondary_calls
  split
  · simp [is_isomer_rect]
  · split
    · simp [is_isomer_rect]
    · simp

/-- Helper: isomer tertiary-marker emission never contains the inset
rectangle. -/
theorem isomer_tertiary_calls_count (pos : ℚ × ℚ) (s c : Option String) (ipc sc : String) :
    (isomer_tertiary_calls pos s c ipc sc).countP is_isomer_rect = 0 := by
  unfold isomer_tertiary_calls
  split
  · simp [is_isomer_rect]
  · simp

/-- Helper: when the ground half-life value is not `?` the caption step
succeeds, assigns the unit variable and adds only text calls. -/
theorem isomer_caption_count (pos : ℚ × ℚ) (fc : String) (hl : HalfLife) (dv : String)
    (hu : Option String) (ihl iu : String) (hq : hl.value ≠ "?") :
    ∃ u cap, isomer_caption_calls pos fc hl dv hu ihl iu = some (some u, cap) ∧
      cap.countP is_isomer_rect = 0 := by
  unfold isomer_caption_calls
  rw [if_pos hq]
  exact ⟨_, _, rfl, by simp [is_isomer_rect]⟩

/-- Helper: a genuine isomer entry produces exactly one inset isomer
rectangle (one full drawing pass). -/
theorem process_isomer_genuine_count (dm1 : List DecayMode) (hl : HalfLife) (fc : String)
    (pos : ℚ × ℚ) (iso : IsomerState) (ipc : String) (hu : Option String)
    (hg : genuine_isomer iso = true) (hq : hl.value ≠ "?") :
    ∃ ipc1 u calls, process_isomer dm1 hl fc pos iso ipc hu = some (ipc1, some u, calls) ∧
      calls.countP is_isomer_rect = 1 := by
  have hg2 : iso.half_life.relation = "=" ∧ iso.half_life.unit ∈ genuine_units := by
    simpa [genuine_isomer] using hg
  obtain ⟨u, cap, hcap, hcnt⟩ := isomer_caption_count pos fc hl ((dm1.headD default).value)
    hu iso.half_life.value iso.half_life.unit hq
  unfold process_isomer
  rw [if_pos hg2.1, if_pos hg2.2, hcap]
  refine ⟨_, u, _, rfl, ?_⟩
  simp [List.countP_append, isomer_secondary_calls_count, isomer_tertiary_calls_count,
    hcnt, is_isomer_rect, List.countP_cons]

/-- Helper: a non-genuine isomer entry draws nothing and leaves the loop
state unchanged. -/
theorem process_isomer_not_genuine (dm1 : List DecayMode) (hl : HalfLife) (fc : String)
    (pos : ℚ × ℚ) (iso : IsomerState) (ipc : String) (hu : Option String)
    (hg : genuine_isomer iso = false) :
    process_isomer dm1 hl fc pos iso ipc hu = some (ipc, hu, []) := by
  unfold process_isomer
  by_cases hrel : iso.half_life.relation = "="
  · have hunit : iso.half_life.unit ∉ genuine_units := by
      intro hmem
      rw [genuine_isomer] at hg
      simp [hrel, hmem] at hg
    rw [if_pos hrel, if_neg hunit]
  · rw [if_neg hrel]

/-- C3 (counterexample): with TWO genuine isomers in the list the
drawing loop performs two full isomer passes (two inset rectangles), so
the resolver does not use only the first genuine match. -/
theorem C3_counterexample :
    (draw_nuclide ⟨1, 2, 3, "h", [⟨"b-", "100"⟩], ⟨"1", "s", "=", "False"⟩,
        [⟨⟨"10", "h", "=", "False"⟩, [⟨"it", "100"⟩]⟩,
         ⟨⟨"20", "s", "=", "False"⟩, [⟨"it", "100"⟩]⟩]⟩ (0, 0)
        ⟨true, true, true, true⟩ true).map (fun r => r.1.countP is_isomer_rect) =
      some 2 := by
  decide

/-- C3 (amended): the isomer loop has no break: EVERY genuine isomer
(relation `=`, genuine-duration unit) triggers a full drawing pass — one
inset rectangle each — while entries with any other relation (such as
`<`) or a non-genuine unit are never selected and draw nothing. -/
theorem C3_amended_every_genuine_isomer_drawn (dm1 : List DecayMode) (hl : HalfLife)
    (fc : String) (pos : ℚ × ℚ) (isos : List IsomerState) (ipc : String)
    (hu : Option String) (hq : hl.value ≠ "?") :
    ∃ ipc2 hu2 calls, process_isomers dm1 hl fc pos isos ipc hu = some (ipc2, hu2, calls) ∧
      calls.countP is_isomer_rect = (isos.filter genuine_isomer).length := by
  induction isos generalizing ipc hu with
  | nil => exact ⟨ipc, hu, [], rfl, by simp⟩
  | cons iso rest ih =>
    by_cases hg : genuine_isomer iso = true
    · obtain ⟨ipc1, u, calls1, hp1, hc1⟩ :=
        process_isomer_genuine_count dm1 hl fc pos iso ipc hu hg hq
      obtain ⟨ipc2, hu2, calls2, hp2, hc2⟩ := ih ipc1 (some u)
      refine ⟨ipc2, hu2, calls1 ++ calls2, ?_, ?_⟩
      · simp only [process_isomers, hp1, hp2]
      · rw [List.countP_append, hc1, hc2]
        simp [List.filter_cons, hg, Nat.add_comm]
    · have hg0 : genuine_isomer iso = false := by simpa using hg
      obtain ⟨ipc2, hu2, calls2, hp2, hc2⟩ := ih ipc hu
      refine ⟨ipc2, hu2, calls2, ?_, ?_⟩
      · simp only [process_isomers, process_isomer_not_genuine dm1 hl fc pos iso ipc hu hg0,
          hp2, List.nil_append]
      · rw [hc2]
        simp [List.filter_cons, hg0]

/-- Witness for the amended C3: two genuine isomers yield two passes. -/
theorem C3_amended_witness :
    ∃ ipc2 hu2 calls,
      process_isomers [⟨"b-", "100"⟩] ⟨"1", "s", "=", "False"⟩ "#000000" (0, 0)
        [⟨⟨"10", "h", "=", "False"⟩, [⟨"it", "100"⟩]⟩,
         ⟨⟨"20", "s", "=", "False"⟩, [⟨"it", "100"⟩]⟩] "#62aeff" none =
        some (ipc2, hu2, calls) ∧
      calls.countP is_isomer_rect =
        ([⟨⟨"10", "h", "=", "False"⟩, [⟨"it", "100"⟩]⟩,
          ⟨⟨"20", "s", "=", "False"⟩, [⟨"it", "100"⟩]⟩].filter genuine_isomer).length :=
  C3_amended_every_genuine_isomer_drawn _ _ _ _ _ _ _ (by decide)

/-- Helper: for a non-stable nuclide whose half-life value is the
placeholder `?`, the main-path display string stays the literal `?`. -/
theorem main_hl_string_unknown (hl : HalfLife) (dm0val pc : String)
    (hns : pc ≠ COLORS "is") (hq : hl.value = "?") :
    main_half_life_string hl dm0val pc = "?" := by
  unfold main_half_life_string
  rw [if_pos hns, hq, if_neg (by simp)]
  decide

/-- C4 (counterexample): a non-stable nuclide with half-life value `?`
gets the literal `?` as its main-path annotation, not the branching
fraction `50%` of `decayModes[0]`. -/
theorem C4_counterexample :
    views (draw_nuclide ⟨1, 2, 3, "h", [⟨"b-", "50"⟩], ⟨"?", "", "", "False"⟩, []⟩
        (0, 0) ⟨false, true, true, true⟩ false) =
      some ([CallView.rect "#62aeff", CallView.text "#000000" 5 "?"], [⟨"b-", "50"⟩]) ∧
      ("?" : String) ≠ "50" ++ "%" :=
  ⟨by decide, by decide⟩

/-- C4 (amended): the branching-fraction fallback for an unknown
half-life exists only on the stable branch and in the isomer caption
code; on the main rendering path every non-stable nuclide with value `?`
is annotated with the literal `?`. -/
theorem C4_amended_literal_question_mark (n : Nuclide) (pos : ℚ × ℚ) (args : Args)
    (d0 : DecayMode) (rest : List DecayMode)
    (hdm : n.decay_modes = d0 :: rest) (hb : d0.mode ∈ basic_decay_modes)
    (hns : COLORS d0.mode ≠ COLORS "is")
    (hq : n.half_life.value = "?")
    (hhl : args.halflives = true) (hx : ¬ n.half_life.extrapolated = "True") :
    ∃ calls, draw_nuclide n pos args false = some (calls, d0 :: rest) ∧
      DrawCall.text 3 (pos.1 + 15, pos.2 + 30 - 15 / 2) FONT_COLOR_DARK 5 "?" ∈ calls := by
  have hu : contains_unstable n.half_life.value = false := by rw [hq]; decide
  obtain ⟨calls, hc, hmem⟩ := draw_main_hl_text_mem n pos args d0 rest hdm hb hu hhl hx
  rw [if_neg hns, main_hl_string_unknown n.half_life d0.value (COLORS d0.mode) hns hq] at hmem
  exact ⟨calls, hc, hmem⟩

/-- Witness for the amended C4 at a concrete beta-minus nuclide with
unknown half-life. -/
theorem C4_amended_witness :
    ∃ calls,
      draw_nuclide ⟨1, 2, 3, "h", [⟨"b-", "50"⟩], ⟨"?", "", "", "False"⟩, []⟩
        (0, 0) ⟨false, true, true, true⟩ false = some (calls, [⟨"b-", "50"⟩]) ∧
      DrawCall.text 3 ((0 : ℚ) + 15, (0 : ℚ) + 30 - 15 / 2) FONT_COLOR_DARK 5 "?" ∈ calls :=
  C4_amended_literal_question_mark _ (0, 0) ⟨false, true, true, true⟩
    ⟨"b-", "50"⟩ [] rfl (by decide) (by decide) rfl rfl (by decide)

/-- C5 (counterexample): a genuine isomer is present and isomer display
is enabled (`args.isomers = true`, `is_isomer = true`), yet with name
display disabled nothing of the isomer encoding is emitted — the whole
isomer branch sits behind the names switch. -/
theorem C5_counterexample :
    resolve_is_isomer [⟨⟨"10", "h", "=", "False"⟩, [⟨"it", "100"⟩]⟩] = true ∧
    views (draw_nuclide ⟨1, 2, 3, "h", [⟨"b-", "100"⟩], ⟨"1", "s", "=", "False"⟩,
        [⟨⟨"10", "h", "=", "False"⟩, [⟨"it", "100"⟩]⟩]⟩ (0, 0)
        ⟨false, true, true, true⟩ true) =
      some ([CallView.rect "#62aeff"], [⟨"b-", "100"⟩]) :=
  ⟨by decide, by decide⟩

/-- Helper: a genuine isomer whose own first decay mode is the
isomeric-transition mode `it` with a parseable value is classified with
the white `it` color as isomer primary, and its pass emits the inset
rectangle, the divider line and the isomer half-life caption. -/
theorem process_isomer_it_primary (dm1 : List DecayMode) (hl : HalfLife) (fc : String)
    (pos : ℚ × ℚ) (iso : IsomerState) (ipc : String) (hu : Option String)
    (v : String) (w : ℚ) (idmRest : List DecayMode)
    (hrel : iso.half_life.relation = "=") (hunit : iso.half_life.unit ∈ genuine_units)
    (hidm : iso.decay_modes = ⟨"it", v⟩ :: idmRest)
    (hw : parseFloat (stripHash v) = some w) (hq : hl.value ≠ "?") :
    ∃ hu1 calls, process_isomer dm1 hl fc pos iso ipc hu = some (COLORS "it", hu1, calls) ∧
      DrawCall.isomerRect 0 pos (COLORS "it") ∈ calls ∧
      DrawCall.isomerLine 1 (pos.1 + 15, pos.2 + 30 * (3 / 10 : ℚ) + 1 / 5)
        (pos.1 + 15, pos.2 + 30 - 1 / 5) ∈ calls ∧
      DrawCall.text 3 (pos.1 + (1 / 4 : ℚ) * 30, pos.2 + 30 * (1 / 2 : ℚ)) fc 3
        iso.half_life.value ∈ calls := by
  unfold process_isomer
  rw [if_pos hrel, if_pos hunit, hidm]
  unfold isomer_caption_calls
  rw [if_pos hq]
  simp only [hw, or_true, if_true, ite_true]
  exact ⟨_, _, rfl, by simp [List.mem_append], by simp [List.mem_append],
    by simp [List.mem_append]⟩

/-- C5 (amended): the isomer re-classification (primary acceptance set
extended with `it`) and the nested encoding — inset rectangle, divider
line, isomer half-life caption — are produced whenever a genuine isomer
is found AND isomer display AND name display are both enabled; the names
switch additionally gates the whole isomer branch. -/
theorem C5_amended_isomer_encoding_behind_names (n : Nuclide) (pos : ℚ × ℚ) (args : Args)
    (d0 : DecayMode) (rest : List DecayMode) (iso : IsomerState) (v : String) (w : ℚ)
    (idmRest : List DecayMode)
    (hdm : n.decay_modes = d0 :: rest) (hb : d0.mode ∈ basic_decay_modes)
    (hu : contains_unstable n.half_life.value = false) (hq : n.half_life.value ≠ "?")
    (hiso : n.isomers = [iso]) (hrel : iso.half_life.relation = "=")
    (hunit : iso.half_life.unit ∈ genuine_units)
    (hidm : iso.decay_modes = ⟨"it", v⟩ :: idmRest)
    (hw : parseFloat (stripHash v) = some w)
    (hin : args.isomers = true) (hnn : args.names = true) :
    ∃ calls, draw_nuclide n pos args true = some (calls, d0 :: rest) ∧
      DrawCall.isomerRect 0 pos (COLORS "it") ∈ calls ∧
      DrawCall.isomerLine 1 (pos.1 + 15, pos.2 + 30 * (3 / 10 : ℚ) + 1 / 5)
        (pos.1 + 15, pos.2 + 30 - 1 / 5) ∈ calls ∧
      DrawCall.text 3 (pos.1 + (1 / 4 : ℚ) * 30, pos.2 + 30 * (1 / 2 : ℚ))
        (if COLORS d0.mode = COLORS "is" then FONT_COLOR_BRIGHT else FONT_COLOR_DARK) 3
        iso.half_life.value ∈ calls := by
  obtain ⟨hu1, calls1, hp1, hr1, hl1, ht1⟩ :=
    process_isomer_it_primary (d0 :: rest) n.half_life
      (if COLORS d0.mode = COLORS "is" then FONT_COLOR_BRIGHT else FONT_COLOR_DARK)
      pos iso (COLORS d0.mode) none v w idmRest hrel hunit hidm hw hq
  rw [draw_nuclide_cons n pos args true d0 rest hdm]
  unfold draw_dispatch primary_classify
  rw [if_pos hb]
  simp only [Option.elim_some]
  unfold draw_body
  rw [if_neg (by simp [hu]), if_pos (⟨hin, rfl⟩ : args.isomers = true ∧ true = true),
    if_pos hnn, hiso]
  simp only [process_isomers, hp1, List.append_nil]
  exact ⟨_, rfl, List.mem_append_right _ hr1, List.mem_append_right _ hl1,
    List.mem_append_right _ ht1⟩

/-- Witness for the amended C5 at a concrete nuclide with one genuine
`it` isomer and all switches enabled. -/
theorem C5_amended_witness :
    ∃ calls,
      draw_nuclide ⟨1, 2, 3, "h", [⟨"b-", "100"⟩], ⟨"1", "s", "=", "False"⟩,
          [⟨⟨"10", "h", "=", "False"⟩, [⟨"it", "100"⟩]⟩]⟩ (0, 0)
          ⟨true, true, true, true⟩ true = some (calls, [⟨"b-", "100"⟩]) ∧
      DrawCall.isomerRect 0 (0, 0) (COLORS "it") ∈ calls ∧
      DrawCall.isomerLine 1 ((0 : ℚ) + 15, (0 : ℚ) + 30 * (3 / 10 : ℚ) + 1 / 5)
        ((0 : ℚ) + 15, (0 : ℚ) + 30 - 1 / 5) ∈ calls ∧
      DrawCall.text 3 ((0 : ℚ) + (1 / 4 : ℚ) * 30, (0 : ℚ) + 30 * (1 / 2 : ℚ))
        (if COLORS "b-" = COLORS "is" then FONT_COLOR_BRIGHT else FONT_COLOR_DARK) 3
        "10" ∈ calls :=
  C5_amended_isomer_encoding_behind_names _ (0, 0) ⟨true, true, true, true⟩
    ⟨"b-", "100"⟩ [] ⟨⟨"10", "h", "=", "False"⟩, [⟨"it", "100"⟩]⟩ "100" 100 []
    rfl (by decide) (by decide) (by decide) rfl rfl (by decide) rfl (by decide)
    rfl rfl

/-- Helper: ground-state secondary-marker emission contains no
half-life-sized text. -/
theorem secondary_calls_no_hl_text (pos : ℚ × ℚ) (s c : Option String) (pc : String) :
    ∀ cl ∈ secondary_calls pos s c pc, is_half_life_text cl = false := by
  unfold secondary_calls
  split
  · intro cl hcl
    rw [List.mem_singleton] at hcl
    subst hcl
    rfl
  · split
    · intro cl hcl
      rw [List.mem_singleton] at hcl
      subst hcl
      rfl
    · intro cl hcl
      simp at hcl

/-- Helper: ground-state tertiary-marker emission contains no
half-life-sized text. -/
theorem tertiary_calls_no_hl_text (pos : ℚ × ℚ) (s c : Option String) (pc sc : String) :
    ∀ cl ∈ tertiary_calls pos s c pc sc, is_half_life_text cl = false := by
  unfold tertiary_calls
  split
  · intro cl hcl
    rw [List.mem_singleton] at hcl
    subst hcl
    rfl
  · intro cl hcl
    simp at hcl

/-- C8 (counterexample): a nuclide with `extrapolated = "True"` and a
genuine isomer still gets its ground-state half-life value `2.5` and
unit `y` drawn as isomer captions — the suppression only exists on the
non-isomer path, so extrapolated half-lives ARE displayed on the isomer
rendering path. -/
theorem C8_counterexample :
    (⟨"2.5", "y", "=", "True"⟩ : HalfLife).extrapolated = "True" ∧
    views (draw_nuclide ⟨1, 2, 3, "h", [⟨"b-", "100"⟩], ⟨"2.5", "y", "=", "True"⟩,
        [⟨⟨"1", "s", "=", "False"⟩, [⟨"it", "100"⟩]⟩]⟩ (0, 0)
        ⟨true, true, true, true⟩ true) =
      some ([CallView.rect "#62aeff", CallView.text "#000000" 5 "$*3*$h",
             CallView.isomerRect "#ffffff", CallView.isomerLine,
             CallView.text "#000000" 3 "2.5", CallView.text "#000000" 3 "y",
             CallView.text "#000000" 3 "1", CallView.text "#000000" 3 "s"],
        [⟨"b-", "100"⟩]) :=
  ⟨rfl, by decide⟩

/-- C8 (amended): the extrapolated filter is applied only on the normal
(non-isomer) rendering path: there a nuclide with
`extrapolated = "True"` never gets a half-life annotation text (font
size `SIZE_FONT_HL`); the isomer caption path applies no such filter. -/
theorem C8_amended_suppression_only_main_path (n : Nuclide) (pos : ℚ × ℚ) (args : Args)
    (d0 : DecayMode) (rest : List DecayMode)
    (hdm : n.decay_modes = d0 :: rest) (hb : d0.mode ∈ basic_decay_modes)
    (hx : n.half_life.extrapolated = "True")
    (hu : contains_unstable n.half_life.value = false) :
    ∃ calls, draw_nuclide n pos args false = some (calls, d0 :: rest) ∧
      ∀ cl ∈ calls, is_half_life_text cl = false := by
  rw [draw_nuclide_cons n pos args false d0 rest hdm]
  unfold draw_dispatch primary_classify
  rw [if_pos hb]
  simp only [Option.elim_some]
  unfold draw_body
  rw [if_neg (by simp [hu]), if_neg (by simp : ¬ (args.isomers = true ∧ false = true))]
  refine ⟨_, rfl, ?_⟩
  intro cl hcl
  rcases List.mem_append.mp hcl with h4 | h5
  · rcases List.mem_append.mp h4 with h3 | hname
    · rcases List.mem_append.mp h3 with h2 | hter
      · rcases List.mem_append.mp h2 with hbase | hsec
        · rw [List.mem_singleton] at hbase
          subst hbase
          rfl
        · exact secondary_calls_no_hl_text pos _ _ _ cl hsec
      · exact tertiary_calls_no_hl_text pos _ _ _ _ cl hter
    · by_cases hn : args.names = true
      · rw [if_pos hn, List.mem_singleton] at hname
        subst hname
        rfl
      · rw [if_neg hn] at hname
        exact absurd hname (List.not_mem_nil cl)
  · rw [if_neg (by simp [hx])] at h5
    exact absurd h5 (List.not_mem_nil cl)

/-- Witness for the amended C8 at a concrete extrapolated nuclide on the
normal path. -/
theorem C8_amended_witness :
    ∃ calls,
      draw_nuclide ⟨1, 2, 3, "h", [⟨"b-", "100"⟩], ⟨"2.5", "y", "=", "True"⟩, []⟩
        (0, 0) ⟨true, true, true, true⟩ false = some (calls, [⟨"b-", "100"⟩]) ∧
      ∀ cl ∈ calls, is_half_life_text cl = false :=
  C8_amended_suppression_only_main_path _ (0, 0) ⟨true, true, true, true⟩
    ⟨"b-", "100"⟩ [] rfl (by decide) rfl (by decide)
